import Mathlib

/-!
# RTC crystal compensation with a look-up table (ATtiny817)

A shallow embedding of `main.c`: the two interrupt handlers `ISR(ADC0_RESRDY_vect)`
(temperature sample) and `ISR(RTC_CNT_vect)` (one-second tick), the constants and the
16-bit look-up table `time_err_vs_temperature`.

Machine integers are `Nat`/`Int` with explicit wrapping at the width of the C type on the
AVR target (`int` is 16 bits, `uint16_t` is `unsigned int`, `int32_t` is `long`).
-/

namespace RTCCompensation

/-! ## Constants -/

/-- Source: `#define ONE_SECOND_TICK_COUNT 32768`. -/
def ONE_SECOND_TICK_COUNT : Nat := 32768

/-- Source: `#define TABLE_LOOKUP_OFFSET 297`. -/
def TABLE_LOOKUP_OFFSET : Int := 297

/-- Source: `#define STATIC_COARSE_ERROR_PER_SECOND 2`. -/
def STATIC_COARSE_ERROR_PER_SECOND : Nat := 2

/-- Source: `#define ONE_SECOND_TICK (ONE_SECOND_TICK_COUNT - 1 + STATIC_COARSE_ERROR_PER_SECOND)`.
The literal 32768 does not fit the 16-bit `int`, so the expression has type `long`. -/
def ONE_SECOND_TICK : Int :=
  (ONE_SECOND_TICK_COUNT : Int) - 1 + (STATIC_COARSE_ERROR_PER_SECOND : Int)

/-- Source: `#define STATIC_FINE_ERROR_PER_SECOND 960`. -/
def STATIC_FINE_ERROR_PER_SECOND : Nat := 960

/-- Source: `#define MAX_ERROR 3052`. -/
def MAX_ERROR : Nat := 3052

/-- Source: `const uint16_t time_err_vs_temperature[] PROGMEM`, the 16-bit table. -/
def time_err_vs_temperature : List Nat :=
  [0,   0,   1,   1,   2,    3,    5,    6,    8,    11,   13,   16,   19,   22,   26,   29,   34,  38,  42,  47,  52,
   58,  63,  69,  75,  82,   89,   96,   103,  110,  118,  126,  134,  143,  152,  161,  170,  179, 189, 199, 210, 220,
   231, 242, 254, 265, 277,  290,  302,  315,  328,  341,  354,  368,  382,  396,  411,  426,  441, 456, 472, 488, 504,
   520, 537, 554, 571, 588,  606,  624,  642,  661,  679,  698,  718,  737,  757,  777,  797,  818, 839, 860, 881, 903,
   925, 947, 969, 992, 1015, 1038, 1062, 1085, 1109, 1134, 1158, 1183, 1208, 1233, 1259, 1285, 1311]

/-! ## Machine integers -/

/-- Conversion to a signed 16-bit value (`int16_t`, and `int` on the AVR), two's complement. -/
def toInt16 (x : Int) : Int := (x + 32768) % 65536 - 32768

/-- Conversion to a signed 32-bit value (`int32_t`), two's complement. -/
def toInt32 (x : Int) : Int := (x + 2147483648) % 4294967296 - 2147483648

/-! ## State -/

/-- The globals of `main.c` and the hardware registers the two handlers write. -/
structure State where
  /-- Source: `volatile int32_t temperature`. -/
  temperature : Int
  /-- Source: `int8_t sigrow_offset`. -/
  sigrow_offset : Int
  /-- Source: `uint8_t sigrow_gain`. -/
  sigrow_gain : Nat
  /-- Source: `volatile uint16_t compensation = 0`. -/
  compensation : Nat
  /-- Source: `volatile uint16_t accumulated_error = 0`. -/
  accumulated_error : Nat
  /-- The 16-bit RTC period register. -/
  RTC_PER : Nat
  /-- The ADC command register. -/
  ADC0_COMMAND : Nat
  /-- The RTC interrupt flag register (last value written). -/
  RTC_INTFLAGS : Nat
deriving DecidableEq

/-- The state when the handlers start running: the zero-initialised globals, the two
calibration bytes read from the signature row and `RTC_PER = ONE_SECOND_TICK_COUNT`, as
`temperature_drift_compensation` leaves them; the two command/flag registers hold 0, no
handler having written them yet. -/
def initial_state (SIGROW_TEMPSENSE1 : Int) (SIGROW_TEMPSENSE0 : Nat) : State :=
  { temperature := 0
    sigrow_offset := SIGROW_TEMPSENSE1
    sigrow_gain := SIGROW_TEMPSENSE0
    compensation := 0
    accumulated_error := 0
    RTC_PER := ONE_SECOND_TICK_COUNT
    ADC0_COMMAND := 0
    RTC_INTFLAGS := 0 }

/-! ## The sample handler `ISR(ADC0_RESRDY_vect)` -/

/-- Source lines 155-156: `adc_reading_low = ADC0_RESL;
adc_reading = (ADC0_RESH << 8) | adc_reading_low` (both registers are bytes). -/
def adc_reading (ADC0_RESH ADC0_RESL : Nat) : Int :=
  let adc_reading_low := ADC0_RESL % 256
  toInt16 ((((ADC0_RESH % 256) <<< 8) ||| adc_reading_low : Nat) : Int)

/-- Source lines 159-162: the calibration of the datasheet,
`temperature = adc_reading - sigrow_offset; temperature *= sigrow_gain;
temperature += 0x80; temperature >>= 8` (`>>` on a negative `int32_t` is the arithmetic
shift). -/
def calibrated_temperature (sigrow_offset : Int) (sigrow_gain : Nat)
    (ADC0_RESH ADC0_RESL : Nat) : Int :=
  let t0 := toInt32 (toInt16 (adc_reading ADC0_RESH ADC0_RESL - sigrow_offset))
  let t1 := toInt32 (t0 * (sigrow_gain : Int))
  let t2 := toInt32 (t1 + 0x80)
  t2 >>> (8 : Nat)

/-- Source line 167: the index `abs((int16_t)temperature - TABLE_LOOKUP_OFFSET)`. -/
def table_index (temperature : Int) : Nat :=
  (toInt16 (toInt16 temperature - TABLE_LOOKUP_OFFSET)).natAbs

/-- Source line 167: the read `ptr_to_data[...]`; `ptr_to_data` is the table seen through
the flash mapping, so entry `i` is `time_err_vs_temperature[i]`. `none` is a read past the
end of the array. -/
def lookup_compensation (temperature : Int) : Option Nat :=
  time_err_vs_temperature[table_index temperature]?

/-- Source: `ISR(ADC0_RESRDY_vect)`. The arguments are the bytes read from the two ADC
result registers. `none` when the table read is outside the array. -/
def ADC0_RESRDY_vect (s : State) (ADC0_RESH ADC0_RESL : Nat) : Option State :=
  let temperature := calibrated_temperature s.sigrow_offset s.sigrow_gain ADC0_RESH ADC0_RESL
  match lookup_compensation temperature with
  | some v => some { s with temperature := temperature, compensation := v }
  | none => none

/-! ## The tick handler `ISR(RTC_CNT_vect)` -/

/-- Source lines 185-190: `while (accumulated_error > MAX_ERROR) { compensation_cycles++;
accumulated_error = accumulated_error - MAX_ERROR; }` with the `uint8_t` counter. Returns
the final `(compensation_cycles, accumulated_error)`. -/
def reduce_loop (compensation_cycles accumulated_error : Nat) : Nat × Nat :=
  if MAX_ERROR < accumulated_error then
    reduce_loop ((compensation_cycles + 1) % 256) (accumulated_error - MAX_ERROR)
  else
    (compensation_cycles, accumulated_error)
termination_by accumulated_error
decreasing_by
  simp only [MAX_ERROR] at *
  omega

/-- Source line 183: `accumulated_error + STATIC_FINE_ERROR_PER_SECOND + compensation` in
16-bit unsigned arithmetic. -/
def error_sum (s : State) : Nat :=
  ((s.accumulated_error + STATIC_FINE_ERROR_PER_SECOND) % 65536 + s.compensation) % 65536

/-- The local `compensation_cycles` of `ISR(RTC_CNT_vect)` when the loop is left. -/
def compensation_cycles (s : State) : Nat :=
  (reduce_loop 0 (error_sum s)).1

/-- Source: `ISR(RTC_CNT_vect)`. `ADC_STCONV_bm` and `RTC_OVF_bm` are the bit masks of the
device header. -/
def RTC_CNT_vect (ADC_STCONV_bm RTC_OVF_bm : Nat) (s : State) : State :=
  let r := reduce_loop 0 (error_sum s)
  { s with
    ADC0_COMMAND := ADC_STCONV_bm
    accumulated_error := r.2
    RTC_PER := ((ONE_SECOND_TICK - (r.1 : Int)) % 65536).toNat
    RTC_INTFLAGS := RTC_OVF_bm }

/-- The number of times the body of the reduction loop runs from a given value of
`accumulated_error` (an unbounded count, next to the `uint8_t` counter of the code). -/
def loop_iterations (accumulated_error : Nat) : Nat :=
  if MAX_ERROR < accumulated_error then
    loop_iterations (accumulated_error - MAX_ERROR) + 1
  else
    0
termination_by accumulated_error
decreasing_by
  simp only [MAX_ERROR] at *
  omega

/-! ## Sequences of events -/

/-- The two interrupts. -/
inductive Event where
  | tick : Event
  | sample (ADC0_RESH ADC0_RESL : Nat) : Event
deriving DecidableEq

/-- One handler run. -/
def step (ADC_STCONV_bm RTC_OVF_bm : Nat) (s : State) : Event → Option State
  | Event.tick => some (RTC_CNT_vect ADC_STCONV_bm RTC_OVF_bm s)
  | Event.sample h l => ADC0_RESRDY_vect s h l

/-- The handlers run one after the other, each to completion. -/
def run (ADC_STCONV_bm RTC_OVF_bm : Nat) : State → List Event → Option State
  | s, [] => some s
  | s, e :: es =>
    match step ADC_STCONV_bm RTC_OVF_bm s e with
    | some s1 => run ADC_STCONV_bm RTC_OVF_bm s1 es
    | none => none

/-- The state after `K` consecutive ticks. -/
def ticks (ADC_STCONV_bm RTC_OVF_bm : Nat) : Nat → State → State
  | 0, s => s
  | K + 1, s => ticks ADC_STCONV_bm RTC_OVF_bm K (RTC_CNT_vect ADC_STCONV_bm RTC_OVF_bm s)

/-- The sum of `compensation_cycles` over `K` consecutive ticks. -/
def total_compensation_cycles (ADC_STCONV_bm RTC_OVF_bm : Nat) : Nat → State → Nat
  | 0, _ => 0
  | K + 1, s =>
    compensation_cycles s +
      total_compensation_cycles ADC_STCONV_bm RTC_OVF_bm K (RTC_CNT_vect ADC_STCONV_bm RTC_OVF_bm s)

/-! ## The sample handler with the raw memory read -/

/-- Source line 167: the read `ptr_to_data[i]` as the hardware performs it. Inside the
array it is the table entry; past the end it is whatever 16-bit word the mapped flash
holds there, which the source does not fix: `beyond i`. -/
def flash_read (beyond : Nat → Nat) (i : Nat) : Nat :=
  (time_err_vs_temperature[i]?).getD (beyond i % 65536)

/-- Source: `ISR(ADC0_RESRDY_vect)` with the table read taken as the raw memory read
`flash_read`, so that the handler is total. It agrees with `ADC0_RESRDY_vect` wherever
that one is defined. -/
def ADC0_RESRDY_vect_flash (beyond : Nat → Nat) (s : State) (ADC0_RESH ADC0_RESL : Nat) : State :=
  let temperature := calibrated_temperature s.sigrow_offset s.sigrow_gain ADC0_RESH ADC0_RESL
  { s with temperature := temperature, compensation := flash_read beyond (table_index temperature) }

/-! ## Ticks with a changing pending compensation -/

/-- The state after one tick per entry of the list; entry `c` is the pending compensation
the sample handler has stored when that tick runs. -/
def ticks_with (ADC_STCONV_bm RTC_OVF_bm : Nat) : State → List Nat → State
  | s, [] => s
  | s, c :: cs =>
    ticks_with ADC_STCONV_bm RTC_OVF_bm
      (RTC_CNT_vect ADC_STCONV_bm RTC_OVF_bm { s with compensation := c }) cs

/-- The sum of `compensation_cycles` over the ticks of `ticks_with`. -/
def cycles_with (ADC_STCONV_bm RTC_OVF_bm : Nat) : State → List Nat → Nat
  | _, [] => 0
  | s, c :: cs =>
    compensation_cycles { s with compensation := c } +
      cycles_with ADC_STCONV_bm RTC_OVF_bm
        (RTC_CNT_vect ADC_STCONV_bm RTC_OVF_bm { s with compensation := c }) cs

/-! ## The closed form of one tick -/

/-- The result `(compensation_cycles, accumulated_error)` of one tick as the closed form
states it, with `S = a + 960 + c`: `((S - 1) div 3052, ((S - 1) mod 3052) + 1)`. -/
def tick_closed_form (a c : Nat) : Nat × Nat :=
  ((a + 960 + c - 1) / 3052, (a + 960 + c - 1) % 3052 + 1)

/-! ## The reduction loop -/

theorem loop_iterations_eq (a : Nat) : loop_iterations a = (a - 1) / MAX_ERROR := by
  induction a using Nat.strong_induction_on with
  | _ a ih =>
    rw [loop_iterations]
    split
    · next h =>
      simp only [MAX_ERROR] at h
      rw [ih (a - MAX_ERROR) (by simp only [MAX_ERROR]; omega)]
      simp only [MAX_ERROR]
      omega
    · next h =>
      simp only [MAX_ERROR] at h
      simp only [MAX_ERROR]
      omega

theorem reduce_loop_eq (a c : Nat) (hc : c < 256) :
    reduce_loop c a = ((c + loop_iterations a) % 256, a - MAX_ERROR * loop_iterations a) := by
  induction a using Nat.strong_induction_on generalizing c with
  | _ a ih =>
    rw [reduce_loop, loop_iterations]
    split
    · next h =>
      simp only [MAX_ERROR] at h
      rw [ih (a - MAX_ERROR) (by simp only [MAX_ERROR]; omega) ((c + 1) % 256) (by omega)]
      have hk := loop_iterations_eq (a - MAX_ERROR)
      simp only [MAX_ERROR] at hk ⊢
      refine Prod.ext ?_ ?_
      · simp only
        omega
      · simp only
        omega
    · next h =>
      simp only [Nat.add_zero, Nat.mul_zero, Nat.sub_zero]
      rw [Nat.mod_eq_of_lt hc]

theorem reduce_loop_le (a c : Nat) : (reduce_loop c a).2 ≤ MAX_ERROR := by
  induction a using Nat.strong_induction_on generalizing c with
  | _ a ih =>
    rw [reduce_loop]
    split
    · next h =>
      simp only [MAX_ERROR] at h
      exact ih (a - MAX_ERROR) (by simp only [MAX_ERROR]; omega) _
    · next h => exact Nat.le_of_not_lt h

theorem reduce_loop_fst_lt (a c : Nat) (hc : c < 256) : (reduce_loop c a).1 < 256 := by
  rw [reduce_loop_eq a c hc]
  exact Nat.mod_lt _ (by decide)

/-- In the model range at most one iteration runs, and the error is conserved. -/
theorem tick_model_range (s : State) (ha : s.accumulated_error ≤ MAX_ERROR)
    (hc : s.compensation ≤ 1311) :
    error_sum s = s.accumulated_error + STATIC_FINE_ERROR_PER_SECOND + s.compensation ∧
    compensation_cycles s = loop_iterations (error_sum s) ∧
    compensation_cycles s ≤ 1 ∧
    MAX_ERROR * compensation_cycles s + (reduce_loop 0 (error_sum s)).2 = error_sum s ∧
    1 ≤ (reduce_loop 0 (error_sum s)).2 := by
  have hsum : error_sum s = s.accumulated_error + STATIC_FINE_ERROR_PER_SECOND + s.compensation := by
    simp only [error_sum, STATIC_FINE_ERROR_PER_SECOND, MAX_ERROR] at *
    omega
  have hk := loop_iterations_eq (error_sum s)
  have hr := reduce_loop_eq (error_sum s) 0 (by decide)
  simp only [compensation_cycles, hr]
  rw [hsum] at hk ⊢
  simp only [STATIC_FINE_ERROR_PER_SECOND, MAX_ERROR] at *
  refine ⟨trivial, ?_, ?_, ?_, ?_⟩ <;> omega

theorem run_append_single (p q : Nat) (s : State) (evs : List Event) (e : Event) :
    run p q s (evs ++ [e]) = (run p q s evs).bind (fun s1 => step p q s1 e) := by
  induction evs generalizing s with
  | nil =>
    simp only [List.nil_append, run, Option.some_bind]
    cases step p q s e <;> rfl
  | cons e1 es ih =>
    simp only [List.cons_append, run]
    cases step p q s e1 with
    | none => rfl
    | some s1 => exact ih s1

/-- After `K` ticks from a state in the model range the error is conserved and the
remainder stays in the range. -/
theorem ticks_conservation (p q K : Nat) (s : State) (ha : s.accumulated_error ≤ MAX_ERROR)
    (hc : s.compensation ≤ 1311) :
    MAX_ERROR * total_compensation_cycles p q K s + (ticks p q K s).accumulated_error =
      K * (STATIC_FINE_ERROR_PER_SECOND + s.compensation) + s.accumulated_error ∧
    (ticks p q K s).accumulated_error ≤ MAX_ERROR ∧
    (ticks p q K s).compensation = s.compensation := by
  induction K generalizing s with
  | zero => simp [total_compensation_cycles, ticks, ha]
  | succ K ih =>
    obtain ⟨h1, _, _, h4, _⟩ := tick_model_range s ha hc
    have hle : (RTC_CNT_vect p q s).accumulated_error ≤ MAX_ERROR := reduce_loop_le _ _
    have hcomp : (RTC_CNT_vect p q s).compensation = s.compensation := rfl
    have hacc : (RTC_CNT_vect p q s).accumulated_error = (reduce_loop 0 (error_sum s)).2 := rfl
    obtain ⟨i1, i2, i3⟩ := ih (RTC_CNT_vect p q s) hle (by rw [hcomp]; exact hc)
    simp only [total_compensation_cycles, ticks]
    rw [hcomp] at i1 i3
    rw [hacc] at i1
    refine ⟨?_, i2, i3⟩
    rw [h1] at h4 i1
    have e1 : (K + 1) * (STATIC_FINE_ERROR_PER_SECOND + s.compensation) =
        K * (STATIC_FINE_ERROR_PER_SECOND + s.compensation) +
          (STATIC_FINE_ERROR_PER_SECOND + s.compensation) := by ring
    rw [e1]
    simp only [MAX_ERROR, STATIC_FINE_ERROR_PER_SECOND] at *
    omega

/-- One tick from a state in the model range: the pending compensation is kept, the
error is conserved and the remainder is between 1 and `MAX_ERROR`. -/
theorem tick_step (p q : Nat) (s : State) (ha : s.accumulated_error ≤ MAX_ERROR)
    (hc : s.compensation ≤ 1311) :
    (RTC_CNT_vect p q s).compensation = s.compensation ∧
    MAX_ERROR * compensation_cycles s + (RTC_CNT_vect p q s).accumulated_error =
      s.accumulated_error + STATIC_FINE_ERROR_PER_SECOND + s.compensation ∧
    1 ≤ (RTC_CNT_vect p q s).accumulated_error ∧
    (RTC_CNT_vect p q s).accumulated_error ≤ MAX_ERROR := by
  obtain ⟨h1, _, _, h4, h5⟩ := tick_model_range s ha hc
  have hacc : (RTC_CNT_vect p q s).accumulated_error = (reduce_loop 0 (error_sum s)).2 := rfl
  refine ⟨rfl, ?_, ?_, ?_⟩
  · rw [hacc, h4, h1]
  · rw [hacc]; exact h5
  · rw [hacc]; exact reduce_loop_le _ _

theorem ADC0_RESRDY_vect_some (s : State) (h l v : Nat)
    (hv : lookup_compensation (calibrated_temperature s.sigrow_offset s.sigrow_gain h l) = some v) :
    ADC0_RESRDY_vect s h l =
      some { s with
        temperature := calibrated_temperature s.sigrow_offset s.sigrow_gain h l
        compensation := v } := by
  dsimp only [ADC0_RESRDY_vect]
  rw [hv]

theorem ADC0_RESRDY_vect_none (s : State) (h l : Nat)
    (hv : lookup_compensation (calibrated_temperature s.sigrow_offset s.sigrow_gain h l) = none) :
    ADC0_RESRDY_vect s h l = none := by
  dsimp only [ADC0_RESRDY_vect]
  rw [hv]

/-- Where the 16-bit computation of the index does not overflow, the index is the
absolute deviation from the reference. -/
theorem table_index_eq (t : Int) (hlo : -32768 + TABLE_LOOKUP_OFFSET ≤ t) (hhi : t ≤ 32767) :
    table_index t = (t - TABLE_LOOKUP_OFFSET).natAbs := by
  simp only [table_index, toInt16, TABLE_LOOKUP_OFFSET] at *
  congr 1
  omega

theorem table_length : time_err_vs_temperature.length = 101 := by decide

/-- The two result bytes of a raw code below 2^15 assemble to the code itself. -/
theorem adc_reading_raw (r : Nat) (hr : r < 32768) : adc_reading (r / 256) (r % 256) = (r : Int) := by
  have hor : ((r / 256 % 256) <<< 8) ||| (r % 256 % 256) = r := by
    have hlt : r % 256 % 256 < 2 ^ 8 := by omega
    rw [Nat.shiftLeft_eq, Nat.mul_comm, ← Nat.mul_add_lt_is_or hlt]
    omega
  simp only [adc_reading, hor, toInt16]
  omega

/-- The calibration for a 10-bit raw code, a signed byte offset and an unsigned byte gain:
no intermediate value leaves its C type. -/
theorem calibrated_temperature_raw (r : Nat) (o : Int) (g : Nat) (hr : r ≤ 1023)
    (ho1 : -128 ≤ o) (ho2 : o ≤ 127) (hg : g ≤ 255) :
    calibrated_temperature o g (r / 256) (r % 256) = (((r : Int) - o) * (g : Int) + 128) / 256 := by
  have h16 : toInt16 ((r : Int) - o) = (r : Int) - o := by
    simp only [toInt16]; omega
  have h32 : toInt32 ((r : Int) - o) = (r : Int) - o := by
    simp only [toInt32]; omega
  have hx0 : -32385 ≤ ((r : Int) - o) * (g : Int) := by nlinarith
  have hx1 : ((r : Int) - o) * (g : Int) ≤ 293505 := by nlinarith
  have hm : toInt32 (((r : Int) - o) * (g : Int)) = ((r : Int) - o) * (g : Int) := by
    simp only [toInt32]; omega
  have ha : toInt32 (((r : Int) - o) * (g : Int) + 128) = ((r : Int) - o) * (g : Int) + 128 := by
    simp only [toInt32]; omega
  have hsh : ∀ m : Int, m >>> (8 : Nat) = m / 256 := fun m => Int.shiftRight_eq_div_pow m 8
  unfold calibrated_temperature
  rw [adc_reading_raw r (by omega), h16, h32]
  dsimp only
  rw [hm, ha, hsh]

theorem table_entry_le (i v : Nat) (h : time_err_vs_temperature[i]? = some v) : v ≤ 1311 := by
  have hall : ∀ x ∈ time_err_vs_temperature, x ≤ 1311 := by decide
  exact hall v (List.getElem?_mem h)

theorem flash_read_of_some (beyond : Nat → Nat) (i v : Nat)
    (h : time_err_vs_temperature[i]? = some v) : flash_read beyond i = v := by
  rw [flash_read, h]
  rfl

/-- Where the sample handler is defined it is the handler with the raw memory read. -/
theorem ADC0_RESRDY_vect_flash_agrees (beyond : Nat → Nat) (s s1 : State) (h l : Nat)
    (hs : ADC0_RESRDY_vect s h l = some s1) : s1 = ADC0_RESRDY_vect_flash beyond s h l := by
  cases hv : lookup_compensation (calibrated_temperature s.sigrow_offset s.sigrow_gain h l) with
  | none =>
    rw [ADC0_RESRDY_vect_none s h l hv] at hs
    exact absurd hs (by simp)
  | some v =>
    rw [ADC0_RESRDY_vect_some s h l v hv] at hs
    have hf := flash_read_of_some beyond _ v hv
    have hs1 := Option.some.inj hs
    rw [← hs1]
    dsimp only [ADC0_RESRDY_vect_flash]
    rw [hf]

/-- The range of the calibrated temperature for a 10-bit raw code and byte calibration
constants. -/
theorem calibrated_temperature_range (r : Nat) (o : Int) (g : Nat) (hr : r ≤ 1023)
    (ho1 : -128 ≤ o) (ho2 : o ≤ 127) (hg : g ≤ 255) :
    -127 ≤ calibrated_temperature o g (r / 256) (r % 256) ∧
    calibrated_temperature o g (r / 256) (r % 256) ≤ 1147 := by
  rw [calibrated_temperature_raw r o g hr ho1 ho2 hg]
  have hx0 : -32385 ≤ ((r : Int) - o) * (g : Int) := by nlinarith
  have hx1 : ((r : Int) - o) * (g : Int) ≤ 293505 := by nlinarith
  omega

/-! ## The claims -/

/-- C1. Accumulator bound: from every pre-state (the sum is taken modulo 2^16) one run of
the tick handler leaves `0 <= accumulated_error <= MAX_ERROR`; hence in every finite
sequence of tick and sample events the bound holds after each tick. -/
theorem accumulator_bound :
    (∀ (p q : Nat) (s : State),
      0 ≤ (RTC_CNT_vect p q s).accumulated_error ∧
      (RTC_CNT_vect p q s).accumulated_error ≤ MAX_ERROR) ∧
    (∀ (p q : Nat) (s : State) (evs : List Event) (s1 : State),
      run p q s (evs ++ [Event.tick]) = some s1 → s1.accumulated_error ≤ MAX_ERROR) := by
  refine ⟨fun p q s => ⟨Nat.zero_le _, reduce_loop_le _ _⟩, ?_⟩
  intro p q s evs s1 h
  rw [run_append_single] at h
  cases hr : run p q s evs with
  | none => rw [hr] at h; exact absurd h (by simp)
  | some s0 =>
    rw [hr] at h
    simp only [Option.some_bind, step, Option.some.injEq] at h
    rw [← h]
    exact reduce_loop_le _ _

/-- Witness of C1: a sample at 297 K followed by a tick, from the initial state. -/
theorem accumulator_bound_witness :
    run 1 1 (initial_state 0 255) ([Event.sample 1 42] ++ [Event.tick]) =
        some (RTC_CNT_vect 1 1 { initial_state 0 255 with temperature := 297 }) ∧
      (RTC_CNT_vect 1 1 { initial_state 0 255 with temperature := 297 }).accumulated_error
        ≤ MAX_ERROR :=
  ⟨rfl, accumulator_bound.2 1 1 (initial_state 0 255) [Event.sample 1 42] _ rfl⟩

/-- C2. Conservation law: over `K` consecutive ticks with constant pending compensation
`c <= 1311` and initial `accumulated_error = a0 <= MAX_ERROR`, the sum of
`compensation_cycles` differs from `floor((K * (960 + c) + a0) / 3052)` by at most 1. -/
theorem conservation_law (p q K : Nat) (s : State) (ha : s.accumulated_error ≤ MAX_ERROR)
    (hc : s.compensation ≤ 1311) :
    total_compensation_cycles p q K s ≤
        (K * (STATIC_FINE_ERROR_PER_SECOND + s.compensation) + s.accumulated_error) / MAX_ERROR + 1 ∧
      (K * (STATIC_FINE_ERROR_PER_SECOND + s.compensation) + s.accumulated_error) / MAX_ERROR ≤
        total_compensation_cycles p q K s + 1 := by
  obtain ⟨h1, h2, _⟩ := ticks_conservation p q K s ha hc
  rw [← h1]
  simp only [MAX_ERROR] at *
  omega

/-- Witness of C2: four ticks from the initial state. -/
theorem conservation_law_witness :
    (initial_state 0 255).accumulated_error ≤ MAX_ERROR ∧
    (initial_state 0 255).compensation ≤ 1311 ∧
    total_compensation_cycles 1 1 4 (initial_state 0 255) ≤
        (4 * (STATIC_FINE_ERROR_PER_SECOND + (initial_state 0 255).compensation) +
          (initial_state 0 255).accumulated_error) / MAX_ERROR + 1 ∧
      (4 * (STATIC_FINE_ERROR_PER_SECOND + (initial_state 0 255).compensation) +
          (initial_state 0 255).accumulated_error) / MAX_ERROR ≤
        total_compensation_cycles 1 1 4 (initial_state 0 255) + 1 :=
  ⟨by decide, by decide, conservation_law 1 1 4 (initial_state 0 255) (by decide) (by decide)⟩

/-- The value the tick handler writes to the period register, for every pre-state. -/
theorem RTC_PER_eq (p q : Nat) (s : State) :
    ((RTC_CNT_vect p q s).RTC_PER : Int) = ONE_SECOND_TICK - (compensation_cycles s : Int) := by
  have h := reduce_loop_fst_lt (error_sum s) 0 (by decide)
  simp only [RTC_CNT_vect, compensation_cycles, ONE_SECOND_TICK, ONE_SECOND_TICK_COUNT,
    STATIC_COARSE_ERROR_PER_SECOND]
  omega

/-- C3 as stated fails: after the first tick from the initial state no cycle is removed
and the period register holds 32769, not `32768 - 1 - 2 - 0 = 32765`. -/
theorem period_register_counterexample :
    compensation_cycles (initial_state 0 255) = 0 ∧
    ((RTC_CNT_vect 1 1 (initial_state 0 255)).RTC_PER : Int) = 32769 ∧
    ((RTC_CNT_vect 1 1 (initial_state 0 255)).RTC_PER : Int) ≠
      ((ONE_SECOND_TICK_COUNT : Int) - 1) - (STATIC_COARSE_ERROR_PER_SECOND : Int)
        - (compensation_cycles (initial_state 0 255) : Int) := by
  have hc : compensation_cycles (initial_state 0 255) = 0 := by
    simp [compensation_cycles, reduce_loop_eq, loop_iterations_eq, error_sum, initial_state,
      STATIC_FINE_ERROR_PER_SECOND, MAX_ERROR]
  refine ⟨hc, ?_, ?_⟩
  · rw [RTC_PER_eq, hc]; decide
  · rw [RTC_PER_eq, hc]; decide

/-- C3, amended. After every run of the tick handler the period register holds
`nominal_period + static_whole_cycle_correction - compensation_cycles`, that is
`(32768 - 1) + STATIC_COARSE_ERROR_PER_SECOND - compensation_cycles
= 32769 - compensation_cycles`: the static whole-cycle correction is added. -/
theorem period_register_value (p q : Nat) (s : State) :
    ((RTC_CNT_vect p q s).RTC_PER : Int) =
        ((ONE_SECOND_TICK_COUNT : Int) - 1) + (STATIC_COARSE_ERROR_PER_SECOND : Int)
          - (compensation_cycles s : Int) ∧
      ((RTC_CNT_vect p q s).RTC_PER : Int) = 32769 - (compensation_cycles s : Int) := by
  have h := RTC_PER_eq p q s
  simp only [ONE_SECOND_TICK, ONE_SECOND_TICK_COUNT, STATIC_COARSE_ERROR_PER_SECOND] at h ⊢
  omega

/-- C4 as stated fails: raw code 400 with offset 0 and gain 255 calibrates to 398 K, a
deviation of 101, and the handler indexes entry 101 of the 101-entry table: the read is
past the end of the array and no boundary value 1311 is stored. -/
theorem clamp_counterexample :
    calibrated_temperature (initial_state 0 255).sigrow_offset (initial_state 0 255).sigrow_gain
        1 144 = 398 ∧
    100 < (398 - TABLE_LOOKUP_OFFSET).natAbs ∧
    table_index 398 = 101 ∧
    time_err_vs_temperature.length ≤ table_index 398 ∧
    lookup_compensation 398 ≠ some 1311 ∧
    ADC0_RESRDY_vect (initial_state 0 255) 1 144 = none :=
  ⟨by decide, by decide, by decide, by decide, by decide, rfl⟩

/-- C4, amended. For every calibrated temperature (in the range where the 16-bit index
computation does not overflow) with `|temperature - 297| <= 100` the table lookup of the
sample handler is an in-bounds read that stores `table[|temperature - 297|]` as pending
compensation, which is the boundary value 1311 at deviation exactly 100; the handler does
not clamp, and for a deviation above 100 the index is past the last entry of the table. -/
theorem lookup_bounds (s : State) (h l : Nat)
    (hlo : -32768 + TABLE_LOOKUP_OFFSET ≤
      calibrated_temperature s.sigrow_offset s.sigrow_gain h l)
    (hhi : calibrated_temperature s.sigrow_offset s.sigrow_gain h l ≤ 32767) :
    table_index (calibrated_temperature s.sigrow_offset s.sigrow_gain h l) =
      (calibrated_temperature s.sigrow_offset s.sigrow_gain h l - TABLE_LOOKUP_OFFSET).natAbs ∧
    ((calibrated_temperature s.sigrow_offset s.sigrow_gain h l - TABLE_LOOKUP_OFFSET).natAbs ≤ 100 →
      ∃ v, time_err_vs_temperature[(calibrated_temperature s.sigrow_offset s.sigrow_gain h l
              - TABLE_LOOKUP_OFFSET).natAbs]? = some v ∧
        ADC0_RESRDY_vect s h l =
          some { s with
            temperature := calibrated_temperature s.sigrow_offset s.sigrow_gain h l
            compensation := v }) ∧
    ((calibrated_temperature s.sigrow_offset s.sigrow_gain h l - TABLE_LOOKUP_OFFSET).natAbs = 100 →
      (ADC0_RESRDY_vect s h l).map State.compensation = some 1311) ∧
    (100 < (calibrated_temperature s.sigrow_offset s.sigrow_gain h l - TABLE_LOOKUP_OFFSET).natAbs →
      time_err_vs_temperature.length ≤
          table_index (calibrated_temperature s.sigrow_offset s.sigrow_gain h l) ∧
        ADC0_RESRDY_vect s h l = none) := by
  have hidx := table_index_eq _ hlo hhi
  have hlen := table_length
  refine ⟨hidx, ?_, ?_, ?_⟩
  · intro hd
    have hlt : (calibrated_temperature s.sigrow_offset s.sigrow_gain h l
        - TABLE_LOOKUP_OFFSET).natAbs < time_err_vs_temperature.length := by omega
    refine ⟨_, List.getElem?_eq_getElem hlt, ?_⟩
    apply ADC0_RESRDY_vect_some
    rw [lookup_compensation, hidx]
    exact List.getElem?_eq_getElem hlt
  · intro hd
    have h100 : time_err_vs_temperature[100]? = some 1311 := by decide
    rw [ADC0_RESRDY_vect_some s h l 1311 (by rw [lookup_compensation, hidx, hd]; exact h100)]
    rfl
  · intro hd
    have hge : time_err_vs_temperature.length ≤ (calibrated_temperature s.sigrow_offset
        s.sigrow_gain h l - TABLE_LOOKUP_OFFSET).natAbs := by omega
    refine ⟨by rw [hidx]; exact hge, ?_⟩
    apply ADC0_RESRDY_vect_none
    rw [lookup_compensation, hidx]
    exact List.getElem?_eq_none hge

/-- Witness of C4 (amended): raw code 399 with offset 0 and gain 255 calibrates to 397 K,
deviation 100. -/
theorem lookup_bounds_witness :
    (-32768 + TABLE_LOOKUP_OFFSET ≤
      calibrated_temperature (initial_state 0 255).sigrow_offset
        (initial_state 0 255).sigrow_gain 1 143) ∧
    (calibrated_temperature (initial_state 0 255).sigrow_offset
        (initial_state 0 255).sigrow_gain 1 143 ≤ 32767) ∧
    (calibrated_temperature (initial_state 0 255).sigrow_offset
        (initial_state 0 255).sigrow_gain 1 143 - TABLE_LOOKUP_OFFSET).natAbs = 100 ∧
    (ADC0_RESRDY_vect (initial_state 0 255) 1 143).map State.compensation = some 1311 :=
  ⟨by decide, by decide, by decide,
    (lookup_bounds (initial_state 0 255) 1 143 (by decide) (by decide)).2.2.1 (by decide)⟩

/-- C5. Startup scenario: from the initial state (`accumulated_error = 0`,
`compensation = 0`), with no sample ever completing, four ticks leave
`accumulated_error` = 960, 1920, 2880, 788 and remove 0, 0, 0, 1 cycles. -/
theorem startup_scenario (p q : Nat) (o : Int) (g : Nat) :
    (initial_state o g).accumulated_error = 0 ∧ (initial_state o g).compensation = 0 ∧
    (ticks p q 1 (initial_state o g)).accumulated_error = 960 ∧
    (ticks p q 2 (initial_state o g)).accumulated_error = 1920 ∧
    (ticks p q 3 (initial_state o g)).accumulated_error = 2880 ∧
    (ticks p q 4 (initial_state o g)).accumulated_error = 788 ∧
    compensation_cycles (initial_state o g) = 0 ∧
    compensation_cycles (ticks p q 1 (initial_state o g)) = 0 ∧
    compensation_cycles (ticks p q 2 (initial_state o g)) = 0 ∧
    compensation_cycles (ticks p q 3 (initial_state o g)) = 1 := by
  have e1 : ticks p q 1 (initial_state o g) = RTC_CNT_vect p q (initial_state o g) := rfl
  have e2 : ticks p q 2 (initial_state o g) =
      RTC_CNT_vect p q (ticks p q 1 (initial_state o g)) := rfl
  have e3 : ticks p q 3 (initial_state o g) =
      RTC_CNT_vect p q (ticks p q 2 (initial_state o g)) := rfl
  have e4 : ticks p q 4 (initial_state o g) =
      RTC_CNT_vect p q (ticks p q 3 (initial_state o g)) := rfl
  have a0 : (initial_state o g).accumulated_error = 0 := rfl
  have c0 : (initial_state o g).compensation = 0 := rfl
  have t1 := tick_step p q (initial_state o g) (by rw [a0]; decide) (by rw [c0]; decide)
  rw [← e1] at t1
  have t2 := tick_step p q (ticks p q 1 (initial_state o g)) t1.2.2.2 (by rw [t1.1, c0]; decide)
  rw [← e2] at t2
  have t3 := tick_step p q (ticks p q 2 (initial_state o g)) t2.2.2.2
    (by rw [t2.1, t1.1, c0]; decide)
  rw [← e3] at t3
  have t4 := tick_step p q (ticks p q 3 (initial_state o g)) t3.2.2.2
    (by rw [t3.1, t2.1, t1.1, c0]; decide)
  rw [← e4] at t4
  obtain ⟨k1, m1, l1, u1⟩ := t1
  obtain ⟨k2, m2, l2, u2⟩ := t2
  obtain ⟨k3, m3, l3, u3⟩ := t3
  obtain ⟨k4, m4, l4, u4⟩ := t4
  simp only [MAX_ERROR, STATIC_FINE_ERROR_PER_SECOND] at *
  refine ⟨rfl, rfl, ?_, ?_, ?_, ?_, ?_, ?_, ?_, ?_⟩ <;> omega

/-- C6. Table monotonicity: the table has 101 entries, `table[d] <= table[d+1]` for
every `d` with `d + 1 < 101`, and its maximum is its last entry, 1311. -/
theorem table_monotone :
    time_err_vs_temperature.length = 101 ∧
    (∀ d : Fin 100, ∃ x y, time_err_vs_temperature[d.val]? = some x ∧
      time_err_vs_temperature[d.val + 1]? = some y ∧ x ≤ y) ∧
    time_err_vs_temperature[100]? = some 1311 ∧
    (∀ d : Fin 101, ∃ x, time_err_vs_temperature[d.val]? = some x ∧ x ≤ 1311) := by
  refine ⟨by decide, ?_, by decide, ?_⟩
  · intro d
    have h : ∀ d : Fin 100, time_err_vs_temperature.getD d.val 0
        ≤ time_err_vs_temperature.getD (d.val + 1) 0 := by decide
    have h1 : d.val < time_err_vs_temperature.length := by
      have := d.isLt; rw [table_length]; omega
    have h2 : d.val + 1 < time_err_vs_temperature.length := by
      have := d.isLt; rw [table_length]; omega
    refine ⟨_, _, List.getElem?_eq_getElem h1, List.getElem?_eq_getElem h2, ?_⟩
    have := h d
    rwa [List.getD_eq_getElem _ _ h1, List.getD_eq_getElem _ _ h2] at this
  · intro d
    have h : ∀ d : Fin 101, time_err_vs_temperature.getD d.val 0 ≤ 1311 := by decide
    have h1 : d.val < time_err_vs_temperature.length := by
      have := d.isLt; rw [table_length]; omega
    refine ⟨_, List.getElem?_eq_getElem h1, ?_⟩
    have := h d
    rwa [List.getD_eq_getElem _ _ h1] at this

/-- C7 as stated fails: the entry at deviation 50 is 328; 231 is the entry at
deviation 42. -/
theorem reference_values_counterexample :
    time_err_vs_temperature[50]? = some 328 ∧
    time_err_vs_temperature[50]? ≠ some 231 ∧
    lookup_compensation (TABLE_LOOKUP_OFFSET + 50) = some 328 := by
  decide

/-- C7, amended. The table lookup at deviation 0 is 0 and at deviation 50 is 328 (231 is
the entry at deviation 42); when the calibrated temperature equals the reference
`TABLE_LOOKUP_OFFSET = 297` the sample handler stores pending compensation 0. -/
theorem reference_values (s : State) (h l : Nat)
    (ht : calibrated_temperature s.sigrow_offset s.sigrow_gain h l = TABLE_LOOKUP_OFFSET) :
    time_err_vs_temperature[0]? = some 0 ∧
    time_err_vs_temperature[50]? = some 328 ∧
    time_err_vs_temperature[42]? = some 231 ∧
    ADC0_RESRDY_vect s h l =
      some { s with temperature := TABLE_LOOKUP_OFFSET, compensation := 0 } := by
  refine ⟨by decide, by decide, by decide, ?_⟩
  rw [ADC0_RESRDY_vect_some s h l 0 (by rw [ht]; decide), ht]

/-- Witness of C7 (amended): raw code 298 with offset 0 and gain 255 calibrates to 297. -/
theorem reference_values_witness :
    calibrated_temperature (initial_state 0 255).sigrow_offset
        (initial_state 0 255).sigrow_gain 1 42 = TABLE_LOOKUP_OFFSET ∧
    time_err_vs_temperature[50]? = some 328 ∧
    ADC0_RESRDY_vect (initial_state 0 255) 1 42 =
      some { initial_state 0 255 with temperature := TABLE_LOOKUP_OFFSET, compensation := 0 } :=
  ⟨by decide, (reference_values (initial_state 0 255) 1 42 (by decide)).2.1,
    (reference_values (initial_state 0 255) 1 42 (by decide)).2.2.2⟩

/-- C8. Calibration rounding: for a raw code `r <= 1023`, a signed 8-bit offset `o` and
an unsigned 8-bit gain `g`, with `x = (r - o) * g`, the temperature the sample handler
computes is `floor((x + 128) / 256)`, the integer nearest to `x / 256` with ties rounded
up: `x - 128 < 256 * temperature <= x + 128`, also for negative `x`. -/
theorem calibration_rounding (r : Nat) (o : Int) (g : Nat) (hr : r ≤ 1023)
    (ho1 : -128 ≤ o) (ho2 : o ≤ 127) (hg : g ≤ 255) :
    calibrated_temperature o g (r / 256) (r % 256) =
      Int.floor (((((r : Int) - o) * (g : Int) + 128 : Int) : ℚ) / 256) ∧
    calibrated_temperature o g (r / 256) (r % 256) = (((r : Int) - o) * (g : Int) + 128) / 256 ∧
    ((r : Int) - o) * (g : Int) - 128 < 256 * calibrated_temperature o g (r / 256) (r % 256) ∧
    256 * calibrated_temperature o g (r / 256) (r % 256) ≤ ((r : Int) - o) * (g : Int) + 128 := by
  have h := calibrated_temperature_raw r o g hr ho1 ho2 hg
  refine ⟨?_, h, ?_, ?_⟩
  · rw [h]
    have := Rat.floor_intCast_div_natCast ((((r : Int) - o) * (g : Int) + 128 : Int)) 256
    simpa using this.symm
  · rw [h]; omega
  · rw [h]; omega

/-- Witness of C8: raw code 0, offset 127, gain 255 gives `x = -32385`, temperature -127. -/
theorem calibration_rounding_witness :
    (0 ≤ 1023 ∧ (-128 : Int) ≤ 127 ∧ (127 : Int) ≤ 127 ∧ 255 ≤ 255) ∧
    calibrated_temperature 127 255 (0 / 256) (0 % 256) = -127 ∧
    ((0 : Nat) : Int) - 127 < 0 ∧
    (((0 : Nat) : Int) - 127) * ((255 : Nat) : Int) - 128
      < 256 * calibrated_temperature 127 255 (0 / 256) (0 % 256) :=
  ⟨by decide, by decide, by decide,
    (calibration_rounding 0 127 255 (by decide) (by decide) (by decide) (by decide)).2.2.1⟩

/-- C9. No overflow in the model range: from a pre-state with
`accumulated_error <= MAX_ERROR` and `compensation` equal to some table entry (so at most
1311), the 16-bit sum `accumulated_error + 960 + compensation` of the tick handler equals
the unbounded sum, the 8-bit counter `compensation_cycles` equals the number of loop
iterations (it does not wrap), and the period value `ONE_SECOND_TICK - compensation_cycles`
is non-negative and fits the 16-bit period register, which receives it unchanged. -/
theorem no_overflow (p q : Nat) (s : State) (i : Nat) (ha : s.accumulated_error ≤ MAX_ERROR)
    (hc : time_err_vs_temperature[i]? = some s.compensation) :
    s.compensation ≤ 1311 ∧
    (s.accumulated_error + STATIC_FINE_ERROR_PER_SECOND) % 65536 =
      s.accumulated_error + STATIC_FINE_ERROR_PER_SECOND ∧
    error_sum s = s.accumulated_error + STATIC_FINE_ERROR_PER_SECOND + s.compensation ∧
    s.accumulated_error + STATIC_FINE_ERROR_PER_SECOND + s.compensation < 65536 ∧
    compensation_cycles s =
      loop_iterations (s.accumulated_error + STATIC_FINE_ERROR_PER_SECOND + s.compensation) ∧
    loop_iterations (s.accumulated_error + STATIC_FINE_ERROR_PER_SECOND + s.compensation) < 256 ∧
    0 ≤ ONE_SECOND_TICK - (compensation_cycles s : Int) ∧
    ONE_SECOND_TICK - (compensation_cycles s : Int) < 65536 ∧
    ((RTC_CNT_vect p q s).RTC_PER : Int) = ONE_SECOND_TICK - (compensation_cycles s : Int) := by
  have hle := table_entry_le i _ hc
  obtain ⟨h1, h2, h3, _, _⟩ := tick_model_range s ha hle
  have hper := RTC_PER_eq p q s
  rw [h1] at h2
  refine ⟨hle, ?_, h1, ?_, h2, ?_, ?_, ?_, hper⟩
  · simp only [MAX_ERROR, STATIC_FINE_ERROR_PER_SECOND] at *; omega
  · simp only [MAX_ERROR, STATIC_FINE_ERROR_PER_SECOND] at *; omega
  · rw [← h2]; omega
  · simp only [ONE_SECOND_TICK, ONE_SECOND_TICK_COUNT, STATIC_COARSE_ERROR_PER_SECOND]; omega
  · simp only [ONE_SECOND_TICK, ONE_SECOND_TICK_COUNT, STATIC_COARSE_ERROR_PER_SECOND]; omega

/-- Witness of C9: a remainder of 3052 with the largest table entry 1311 pending. -/
theorem no_overflow_witness :
    ({ initial_state 0 255 with accumulated_error := 3052, compensation := 1311 } : State).accumulated_error
        ≤ MAX_ERROR ∧
    time_err_vs_temperature[100]? = some
      ({ initial_state 0 255 with accumulated_error := 3052, compensation := 1311 } : State).compensation ∧
    error_sum { initial_state 0 255 with accumulated_error := 3052, compensation := 1311 } =
      3052 + STATIC_FINE_ERROR_PER_SECOND + 1311 ∧
    ((RTC_CNT_vect 1 1
        { initial_state 0 255 with accumulated_error := 3052, compensation := 1311 }).RTC_PER : Int) =
      ONE_SECOND_TICK - (compensation_cycles
        { initial_state 0 255 with accumulated_error := 3052, compensation := 1311 } : Int) :=
  ⟨by decide, by decide,
    (no_overflow 1 1 { initial_state 0 255 with accumulated_error := 3052, compensation := 1311 }
      100 (by decide) (by decide)).2.2.1,
    (no_overflow 1 1 { initial_state 0 255 with accumulated_error := 3052, compensation := 1311 }
      100 (by decide) (by decide)).2.2.2.2.2.2.2.2⟩

/-- C10. Table symmetry around the reference: for every `d <= 100`, the pending
compensation the sample handler stores for calibrated temperature `297 + d` equals the
one it stores for `297 - d`, and both equal `table[d]`. -/
theorem table_symmetry (s1 s2 : State) (h1 l1 h2 l2 d : Nat) (hd : d ≤ 100)
    (hup : calibrated_temperature s1.sigrow_offset s1.sigrow_gain h1 l1 =
      TABLE_LOOKUP_OFFSET + (d : Int))
    (hdn : calibrated_temperature s2.sigrow_offset s2.sigrow_gain h2 l2 =
      TABLE_LOOKUP_OFFSET - (d : Int)) :
    ∃ v, time_err_vs_temperature[d]? = some v ∧
      ADC0_RESRDY_vect s1 h1 l1 =
        some { s1 with temperature := TABLE_LOOKUP_OFFSET + (d : Int), compensation := v } ∧
      ADC0_RESRDY_vect s2 h2 l2 =
        some { s2 with temperature := TABLE_LOOKUP_OFFSET - (d : Int), compensation := v } ∧
      (ADC0_RESRDY_vect s1 h1 l1).map State.compensation =
        (ADC0_RESRDY_vect s2 h2 l2).map State.compensation := by
  have hlt : d < time_err_vs_temperature.length := by rw [table_length]; omega
  have hv := List.getElem?_eq_getElem hlt
  have iup : table_index (TABLE_LOOKUP_OFFSET + (d : Int)) = d := by
    rw [table_index_eq _ (by simp only [TABLE_LOOKUP_OFFSET]; omega)
      (by simp only [TABLE_LOOKUP_OFFSET]; omega)]
    omega
  have idn : table_index (TABLE_LOOKUP_OFFSET - (d : Int)) = d := by
    rw [table_index_eq _ (by simp only [TABLE_LOOKUP_OFFSET]; omega)
      (by simp only [TABLE_LOOKUP_OFFSET]; omega)]
    omega
  have r1 := ADC0_RESRDY_vect_some s1 h1 l1 _
    (by rw [hup, lookup_compensation, iup]; exact hv)
  have r2 := ADC0_RESRDY_vect_some s2 h2 l2 _
    (by rw [hdn, lookup_compensation, idn]; exact hv)
  rw [hup] at r1
  rw [hdn] at r2
  refine ⟨_, hv, r1, r2, ?_⟩
  rw [r1, r2]
  rfl

/-- Witness of C10: raw codes 399 and 198 with offset 0 and gain 255 calibrate to
397 = 297 + 100 and 197 = 297 - 100; both store `table[100] = 1311`. -/
theorem table_symmetry_witness :
    calibrated_temperature (initial_state 0 255).sigrow_offset
        (initial_state 0 255).sigrow_gain 1 143 = TABLE_LOOKUP_OFFSET + ((100 : Nat) : Int) ∧
    calibrated_temperature (initial_state 0 255).sigrow_offset
        (initial_state 0 255).sigrow_gain 0 198 = TABLE_LOOKUP_OFFSET - ((100 : Nat) : Int) ∧
    time_err_vs_temperature[100]? = some 1311 ∧
    (ADC0_RESRDY_vect (initial_state 0 255) 1 143).map State.compensation =
      (ADC0_RESRDY_vect (initial_state 0 255) 0 198).map State.compensation :=
  ⟨by decide, by decide, by decide,
    (table_symmetry (initial_state 0 255) (initial_state 0 255) 1 143 0 198 100 (by decide)
      (by decide) (by decide)).elim (fun _ hx => hx.2.2.2)⟩

/-- C11. Lag property: the tick handler reads the pending compensation and never writes
it; the sample handler writes only `temperature` and the pending compensation, never
`accumulated_error` or the period register. So, for every state and raw codes `r1`, `r2`,
a tick followed by the sample of `r` leaves the same `accumulated_error` and the same
period value for `r = r1` and `r = r2`, and the following tick adds the compensation
selected by that `r`. -/
theorem lag_property (beyond : Nat → Nat) (p q : Nat) (s : State) (h1 l1 h2 l2 : Nat) :
    (RTC_CNT_vect p q s).compensation = s.compensation ∧
    (RTC_CNT_vect p q s).temperature = s.temperature ∧
    (RTC_CNT_vect p q s).accumulated_error = (reduce_loop 0 (error_sum s)).2 ∧
    (ADC0_RESRDY_vect_flash beyond (RTC_CNT_vect p q s) h1 l1).accumulated_error =
      (RTC_CNT_vect p q s).accumulated_error ∧
    (ADC0_RESRDY_vect_flash beyond (RTC_CNT_vect p q s) h1 l1).RTC_PER =
      (RTC_CNT_vect p q s).RTC_PER ∧
    (ADC0_RESRDY_vect_flash beyond (RTC_CNT_vect p q s) h1 l1).accumulated_error =
      (ADC0_RESRDY_vect_flash beyond (RTC_CNT_vect p q s) h2 l2).accumulated_error ∧
    (ADC0_RESRDY_vect_flash beyond (RTC_CNT_vect p q s) h1 l1).RTC_PER =
      (ADC0_RESRDY_vect_flash beyond (RTC_CNT_vect p q s) h2 l2).RTC_PER ∧
    (ADC0_RESRDY_vect_flash beyond (RTC_CNT_vect p q s) h1 l1).compensation =
      flash_read beyond (table_index (calibrated_temperature s.sigrow_offset s.sigrow_gain h1 l1)) ∧
    error_sum (ADC0_RESRDY_vect_flash beyond (RTC_CNT_vect p q s) h1 l1) =
      (((RTC_CNT_vect p q s).accumulated_error + STATIC_FINE_ERROR_PER_SECOND) % 65536 +
        flash_read beyond
          (table_index (calibrated_temperature s.sigrow_offset s.sigrow_gain h1 l1))) % 65536 ∧
    (∀ s1 : State, ADC0_RESRDY_vect (RTC_CNT_vect p q s) h1 l1 = some s1 →
      s1 = ADC0_RESRDY_vect_flash beyond (RTC_CNT_vect p q s) h1 l1 ∧
      s1.accumulated_error = (RTC_CNT_vect p q s).accumulated_error ∧
      s1.RTC_PER = (RTC_CNT_vect p q s).RTC_PER) := by
  have hacc : ∀ h l, (ADC0_RESRDY_vect_flash beyond (RTC_CNT_vect p q s) h l).accumulated_error =
      (RTC_CNT_vect p q s).accumulated_error := fun _ _ => rfl
  have hper : ∀ h l, (ADC0_RESRDY_vect_flash beyond (RTC_CNT_vect p q s) h l).RTC_PER =
      (RTC_CNT_vect p q s).RTC_PER := fun _ _ => rfl
  have hso : (RTC_CNT_vect p q s).sigrow_offset = s.sigrow_offset := rfl
  have hsg : (RTC_CNT_vect p q s).sigrow_gain = s.sigrow_gain := rfl
  have hcomp : (ADC0_RESRDY_vect_flash beyond (RTC_CNT_vect p q s) h1 l1).compensation =
      flash_read beyond
        (table_index (calibrated_temperature s.sigrow_offset s.sigrow_gain h1 l1)) := by
    rw [← hso, ← hsg]
    generalize RTC_CNT_vect p q s = s0
    dsimp only [ADC0_RESRDY_vect_flash]
  refine ⟨rfl, rfl, rfl, hacc h1 l1, hper h1 l1, ?_, ?_, hcomp, ?_, ?_⟩
  · rw [hacc h1 l1, hacc h2 l2]
  · rw [hper h1 l1, hper h2 l2]
  · rw [error_sum, hacc h1 l1, hcomp]
  intro s1 hs
  have e := ADC0_RESRDY_vect_flash_agrees beyond _ s1 h1 l1 hs
  refine ⟨e, ?_, ?_⟩
  · rw [e]; rfl
  · rw [e]; rfl

/-- Witness of C11: after the first tick, raw code 298 (297 K, inside the table) and raw
code 400 (398 K, past the table) leave the same `accumulated_error`, and the sample of
raw code 298 is the state the defined handler returns. -/
theorem lag_property_witness :
    (ADC0_RESRDY_vect_flash (fun _ => 0) (RTC_CNT_vect 1 1 (initial_state 0 255)) 1 42).accumulated_error =
      (ADC0_RESRDY_vect_flash (fun _ => 0) (RTC_CNT_vect 1 1 (initial_state 0 255)) 1 144).accumulated_error ∧
    ADC0_RESRDY_vect (RTC_CNT_vect 1 1 (initial_state 0 255)) 1 42 =
      some { RTC_CNT_vect 1 1 (initial_state 0 255) with temperature := 297, compensation := 0 } ∧
    ({ RTC_CNT_vect 1 1 (initial_state 0 255) with temperature := 297, compensation := 0 } : State)
      = ADC0_RESRDY_vect_flash (fun _ => 0) (RTC_CNT_vect 1 1 (initial_state 0 255)) 1 42 :=
  ⟨(lag_property (fun _ => 0) 1 1 (initial_state 0 255) 1 42 1 144).2.2.2.2.2.1, rfl,
    ((lag_property (fun _ => 0) 1 1 (initial_state 0 255) 1 42 1 144).2.2.2.2.2.2.2.2.2 _ rfl).1⟩

/-- C12. Pending compensation bound: the pending compensation is 0 in the initial state,
and after every run of the sample handler whose calibrated temperature lies in the range
of the table, `197 <= temperature <= 397`, it is at most 1311, the largest table entry. -/
theorem pending_compensation_bound (o : Int) (g : Nat) (s : State) (h l : Nat)
    (hlo : 197 ≤ calibrated_temperature s.sigrow_offset s.sigrow_gain h l)
    (hhi : calibrated_temperature s.sigrow_offset s.sigrow_gain h l ≤ 397) :
    (initial_state o g).compensation = 0 ∧
    (calibrated_temperature s.sigrow_offset s.sigrow_gain h l - TABLE_LOOKUP_OFFSET).natAbs ≤ 100 ∧
    ∃ v, ADC0_RESRDY_vect s h l =
        some { s with
          temperature := calibrated_temperature s.sigrow_offset s.sigrow_gain h l
          compensation := v } ∧
      v ≤ 1311 := by
  have hidx := table_index_eq (calibrated_temperature s.sigrow_offset s.sigrow_gain h l)
    (by simp only [TABLE_LOOKUP_OFFSET]; omega) (by omega)
  have hd : (calibrated_temperature s.sigrow_offset s.sigrow_gain h l
      - TABLE_LOOKUP_OFFSET).natAbs ≤ 100 := by
    simp only [TABLE_LOOKUP_OFFSET]; omega
  have hlt : (calibrated_temperature s.sigrow_offset s.sigrow_gain h l
      - TABLE_LOOKUP_OFFSET).natAbs < time_err_vs_temperature.length := by
    rw [table_length]; omega
  have hv := List.getElem?_eq_getElem hlt
  refine ⟨rfl, hd, _, ?_, table_entry_le _ _ hv⟩
  apply ADC0_RESRDY_vect_some
  rw [lookup_compensation, hidx]
  exact hv

/-- Witness of C12: raw code 399 with offset 0 and gain 255 calibrates to 397 K, the upper
end of the range; the handler stores 1311. -/
theorem pending_compensation_bound_witness :
    (197 ≤ calibrated_temperature (initial_state 0 255).sigrow_offset
      (initial_state 0 255).sigrow_gain 1 143) ∧
    (calibrated_temperature (initial_state 0 255).sigrow_offset
      (initial_state 0 255).sigrow_gain 1 143 ≤ 397) ∧
    (initial_state 0 255).compensation = 0 ∧
    ∃ v, ADC0_RESRDY_vect (initial_state 0 255) 1 143 =
        some { initial_state 0 255 with
          temperature := calibrated_temperature (initial_state 0 255).sigrow_offset
            (initial_state 0 255).sigrow_gain 1 143
          compensation := v } ∧
      v ≤ 1311 :=
  ⟨by decide, by decide,
    (pending_compensation_bound 0 255 (initial_state 0 255) 1 143 (by decide) (by decide)).1,
    (pending_compensation_bound 0 255 (initial_state 0 255) 1 143 (by decide) (by decide)).2.2⟩

/-- C13. Reduction loop bound: the loop of the tick handler ends for every 16-bit value
of `accumulated_error`, after at most 21 runs of its body (21 at 65535), which the 8-bit
counter holds without wrapping; from a pre-state with `accumulated_error <= 3052` and
`compensation <= 1311` the body runs at most once, so the period written is 32769 or
32768. -/
theorem reduction_loop_bound :
    (∀ a : Nat, a < 65536 →
      loop_iterations a ≤ 21 ∧
      reduce_loop 0 a = (loop_iterations a, a - MAX_ERROR * loop_iterations a) ∧
      (reduce_loop 0 a).2 ≤ MAX_ERROR) ∧
    loop_iterations 65535 = 21 ∧
    (∀ s : State,
      compensation_cycles s = loop_iterations (error_sum s) ∧
      loop_iterations (error_sum s) ≤ 21) ∧
    (∀ (p q : Nat) (s : State), s.accumulated_error ≤ MAX_ERROR → s.compensation ≤ 1311 →
      loop_iterations (error_sum s) ≤ 1 ∧
      compensation_cycles s ≤ 1 ∧
      ((RTC_CNT_vect p q s).RTC_PER = 32769 ∨ (RTC_CNT_vect p q s).RTC_PER = 32768)) := by
  have h21 : ∀ a : Nat, a < 65536 → loop_iterations a ≤ 21 := by
    intro a ha
    rw [loop_iterations_eq]
    simp only [MAX_ERROR]
    omega
  have hloop : ∀ a : Nat, a < 65536 →
      reduce_loop 0 a = (loop_iterations a, a - MAX_ERROR * loop_iterations a) := by
    intro a ha
    have hk := h21 a ha
    rw [reduce_loop_eq a 0 (by decide)]
    refine Prod.ext ?_ rfl
    simp only
    omega
  have hsum : ∀ s : State, error_sum s < 65536 := by
    intro s
    simp only [error_sum]
    omega
  refine ⟨fun a ha => ⟨h21 a ha, hloop a ha, reduce_loop_le _ _⟩, ?_, ?_, ?_⟩
  · rw [loop_iterations_eq]
    decide
  · intro s
    refine ⟨?_, h21 _ (hsum s)⟩
    simp only [compensation_cycles, hloop _ (hsum s)]
  · intro p q s ha hc
    obtain ⟨_, h2, h3, _, _⟩ := tick_model_range s ha hc
    have hper := RTC_PER_eq p q s
    simp only [ONE_SECOND_TICK, ONE_SECOND_TICK_COUNT, STATIC_COARSE_ERROR_PER_SECOND] at hper
    refine ⟨by rw [← h2]; exact h3, h3, ?_⟩
    omega

/-- Witness of C13: from a remainder of 3052 with 1311 pending the body runs once and
the period written is 32768. -/
theorem reduction_loop_bound_witness :
    ({ initial_state 0 255 with accumulated_error := 3052, compensation := 1311 } : State).accumulated_error
      ≤ MAX_ERROR ∧
    ({ initial_state 0 255 with accumulated_error := 3052, compensation := 1311 } : State).compensation
      ≤ 1311 ∧
    ((RTC_CNT_vect 1 1
        { initial_state 0 255 with accumulated_error := 3052, compensation := 1311 }).RTC_PER = 32769 ∨
      (RTC_CNT_vect 1 1
        { initial_state 0 255 with accumulated_error := 3052, compensation := 1311 }).RTC_PER = 32768) :=
  ⟨by decide, by decide,
    (reduction_loop_bound.2.2.2 1 1
      { initial_state 0 255 with accumulated_error := 3052, compensation := 1311 }
      (by decide) (by decide)).2.2⟩

/-- C14, the code at the failing input: a calibrated temperature of 298 (25 C in integer
kelvin, reached by raw code 299 with offset 0 and gain 255) gives table index
`abs(298 - 297) = 1`, not 0; index 0 is given by 297. -/
theorem reference_index_evaluation :
    calibrated_temperature (initial_state 0 255).sigrow_offset (initial_state 0 255).sigrow_gain
        1 43 = 25 + 273 ∧
    table_index (25 + 273) = 1 ∧
    table_index (25 + 273) ≠ 0 ∧
    ((25 + 273 : Int) - TABLE_LOOKUP_OFFSET).natAbs = 1 ∧
    table_index 297 = 0 ∧
    ADC0_RESRDY_vect (initial_state 0 255) 1 43 =
      some { initial_state 0 255 with temperature := 298, compensation := 0 } :=
  ⟨by decide, by decide, by decide, by decide, by decide, rfl⟩

/-- C15. Exact error conservation: for every finite sequence of ticks from
`accumulated_error = a0 <= 3052`, where tick `i` runs with pending compensation
`c_i <= 1311` and removes `n_i` cycles, the final `accumulated_error` satisfies
`3052 * (n_1 + ... + n_K) + a_K = a0 + sum of (960 + c_i)`; the remainder stays within
`MAX_ERROR`. -/
theorem exact_conservation (p q : Nat) (s : State) (cs : List Nat)
    (ha : s.accumulated_error ≤ MAX_ERROR) (hcs : ∀ c ∈ cs, c ≤ 1311) :
    MAX_ERROR * cycles_with p q s cs + (ticks_with p q s cs).accumulated_error =
      s.accumulated_error + (cs.map (fun c => STATIC_FINE_ERROR_PER_SECOND + c)).sum ∧
    (ticks_with p q s cs).accumulated_error ≤ MAX_ERROR := by
  induction cs generalizing s with
  | nil => simp [cycles_with, ticks_with, ha]
  | cons c cs ih =>
    have hc : c ≤ 1311 := hcs c (List.mem_cons_self c cs)
    have hrest : ∀ x ∈ cs, x ≤ 1311 := fun x hx => hcs x (List.mem_cons_of_mem c hx)
    have a0 : ({ s with compensation := c } : State).accumulated_error = s.accumulated_error := rfl
    have c0 : ({ s with compensation := c } : State).compensation = c := rfl
    obtain ⟨_, t2, _, t4⟩ := tick_step p q { s with compensation := c }
      (by rw [a0]; exact ha) (by rw [c0]; exact hc)
    rw [a0, c0] at t2
    obtain ⟨i1, i2⟩ := ih (RTC_CNT_vect p q { s with compensation := c }) t4 hrest
    simp only [cycles_with, ticks_with, List.map_cons, List.sum_cons]
    refine ⟨?_, i2⟩
    simp only [MAX_ERROR, STATIC_FINE_ERROR_PER_SECOND] at *
    omega

/-- Witness of C15: three ticks from the initial state with 0, 1311 and 231 pending. -/
theorem exact_conservation_witness :
    (initial_state 0 255).accumulated_error ≤ MAX_ERROR ∧
    (∀ c ∈ [0, 1311, 231], c ≤ 1311) ∧
    MAX_ERROR * cycles_with 1 1 (initial_state 0 255) [0, 1311, 231] +
        (ticks_with 1 1 (initial_state 0 255) [0, 1311, 231]).accumulated_error =
      (initial_state 0 255).accumulated_error +
        ([0, 1311, 231].map (fun c => STATIC_FINE_ERROR_PER_SECOND + c)).sum :=
  ⟨by decide, by decide,
    (exact_conservation 1 1 (initial_state 0 255) [0, 1311, 231] (by decide) (by decide)).1⟩

/-- C16. Closed form of one tick: from a pre-state with `accumulated_error = a <= 3052`
and `compensation = c <= 1311`, with `S = a + 960 + c`, the loop leaves
`compensation_cycles = (S - 1) div 3052` and `accumulated_error = ((S - 1) mod 3052) + 1`;
the remainder after a tick is never 0 and can be a full cycle 3052 left uncompensated
(`a = 2092`, `c = 0` gives cycles 0 and remainder 3052). -/
theorem closed_form_of_tick (p q : Nat) (s : State) (ha : s.accumulated_error ≤ MAX_ERROR)
    (hc : s.compensation ≤ 1311) :
    reduce_loop 0 (error_sum s) = tick_closed_form s.accumulated_error s.compensation ∧
    compensation_cycles s = (tick_closed_form s.accumulated_error s.compensation).1 ∧
    (RTC_CNT_vect p q s).accumulated_error =
      (tick_closed_form s.accumulated_error s.compensation).2 ∧
    (RTC_CNT_vect p q s).accumulated_error ≠ 0 ∧
    tick_closed_form 2092 0 = (0, 3052) := by
  obtain ⟨h1, h2, h3, h4, h5⟩ := tick_model_range s ha hc
  have hle := reduce_loop_le (error_sum s) 0
  have hacc : (RTC_CNT_vect p q s).accumulated_error = (reduce_loop 0 (error_sum s)).2 := rfl
  have hcyc : compensation_cycles s = (reduce_loop 0 (error_sum s)).1 := rfl
  have hfst : (reduce_loop 0 (error_sum s)).1 =
      (tick_closed_form s.accumulated_error s.compensation).1 := by
    rw [← hcyc]
    simp only [tick_closed_form, MAX_ERROR, STATIC_FINE_ERROR_PER_SECOND] at *
    omega
  have hsnd : (reduce_loop 0 (error_sum s)).2 =
      (tick_closed_form s.accumulated_error s.compensation).2 := by
    simp only [tick_closed_form, MAX_ERROR, STATIC_FINE_ERROR_PER_SECOND] at *
    omega
  refine ⟨Prod.ext hfst hsnd, by rw [hcyc]; exact hfst, by rw [hacc]; exact hsnd, ?_, by decide⟩
  rw [hacc]
  omega

/-- Witness of C16: `a = 2092`, `c = 0` gives cycles 0 and remainder 3052. -/
theorem closed_form_of_tick_witness :
    ({ initial_state 0 255 with accumulated_error := 2092 } : State).accumulated_error ≤ MAX_ERROR ∧
    ({ initial_state 0 255 with accumulated_error := 2092 } : State).compensation ≤ 1311 ∧
    compensation_cycles { initial_state 0 255 with accumulated_error := 2092 } = 0 ∧
    (RTC_CNT_vect 1 1 { initial_state 0 255 with accumulated_error := 2092 }).accumulated_error
      = 3052 :=
  ⟨by decide, by decide,
    (closed_form_of_tick 1 1 { initial_state 0 255 with accumulated_error := 2092 }
      (by decide) (by decide)).2.1.trans (by decide),
    (closed_form_of_tick 1 1 { initial_state 0 255 with accumulated_error := 2092 }
      (by decide) (by decide)).2.2.1.trans (by decide)⟩

/-- C17. Reachable index range: raw code 1023 with offset 0 and gain 255 calibrates to
1019 and gives index 722, past the last valid index 100, so the handler reads outside
the table; and for every raw code `r <= 1023`, signed 8-bit offset and unsigned 8-bit
gain the index is `|temperature - 297|`, within `0..100` exactly when
`197 <= temperature <= 397`. -/
theorem reachable_index_range (r : Nat) (o : Int) (g : Nat) (hr : r ≤ 1023)
    (ho1 : -128 ≤ o) (ho2 : o ≤ 127) (hg : g ≤ 255) :
    (∃ r0 o0 g0, r0 ≤ 1023 ∧ (-128 : Int) ≤ o0 ∧ o0 ≤ 127 ∧ g0 ≤ 255 ∧
      100 < table_index (calibrated_temperature o0 g0 (r0 / 256) (r0 % 256))) ∧
    calibrated_temperature 0 255 (1023 / 256) (1023 % 256) = 1019 ∧
    table_index 1019 = 722 ∧
    ADC0_RESRDY_vect (initial_state 0 255) (1023 / 256) (1023 % 256) = none ∧
    table_index (calibrated_temperature o g (r / 256) (r % 256)) =
      (calibrated_temperature o g (r / 256) (r % 256) - TABLE_LOOKUP_OFFSET).natAbs ∧
    (table_index (calibrated_temperature o g (r / 256) (r % 256)) ≤ 100 ↔
      197 ≤ calibrated_temperature o g (r / 256) (r % 256) ∧
      calibrated_temperature o g (r / 256) (r % 256) ≤ 397) := by
  obtain ⟨hlo, hhi⟩ := calibrated_temperature_range r o g hr ho1 ho2 hg
  have hidx := table_index_eq (calibrated_temperature o g (r / 256) (r % 256))
    (by simp only [TABLE_LOOKUP_OFFSET]; omega) (by omega)
  refine ⟨⟨1023, 0, 255, by decide, by decide, by decide, by decide, by decide⟩,
    by decide, by decide, rfl, hidx, ?_⟩
  rw [hidx]
  simp only [TABLE_LOOKUP_OFFSET]
  omega

/-- Witness of C17: raw code 1023 with offset 0 and gain 255. -/
theorem reachable_index_range_witness :
    (1023 ≤ 1023 ∧ (-128 : Int) ≤ 0 ∧ (0 : Int) ≤ 127 ∧ 255 ≤ 255) ∧
    100 < table_index (calibrated_temperature 0 255 (1023 / 256) (1023 % 256)) ∧
    ¬ (197 ≤ calibrated_temperature 0 255 (1023 / 256) (1023 % 256) ∧
      calibrated_temperature 0 255 (1023 / 256) (1023 % 256) ≤ 397) :=
  ⟨by decide, by decide,
    fun hin =>
      absurd
        ((reachable_index_range 1023 0 255 (by decide) (by decide) (by decide)
          (by decide)).2.2.2.2.2.mpr hin)
        (by decide)⟩

end RTCCompensation
